import Mathlib

/-!
Shallow embedding of the `task_storage` package: the in-memory task store
(`task_storage/memory.py`, class `InMemoryTaskStorage`) and the factory
selector (`task_storage/__init__.py`, `get_task_storage`).

Python dictionaries preserve insertion order; assignment to an existing key
keeps its position, assignment to a fresh key appends at the end.  We model a
dictionary with string keys as an association list in insertion order and
translate each method of the source statement by statement.  Every operation
is modelled as a state transformer on the two-level store, returning its
result paired with the post-call store; a Python `raise` is an
`Except.error` result and leaves the store exactly as it was at the raise
point (faithful to the source, where the existence check precedes every
mutation).
-/

namespace TaskStore

/-- Values stored in a task record: strings (status, output, error,
timestamps, ...), lists (steps, media), the Python `None`, an opaque
agent handle, and opaque caller-supplied payloads (step and media records
are opaque mappings from the store's point of view). -/
inductive Val where
  | str : String → Val
  | vlist : List Val → Val
  | null : Val
  | agentHandle : Nat → Val
  | payload : Nat → Val

/-- A Python dict with string keys, as an association list in insertion
order. -/
abbrev Dict (α : Type) := List (String × α)

/-- A task record: field name to value, the `task_data` dict of the source. -/
abbrev TaskRecord := Dict Val

/-- The tasks of one user: task_id to record. -/
abbrev UserTasks := Dict TaskRecord

/-- The whole store `self._tasks`: user_id to that user's tasks. -/
abbrev Store := Dict UserTasks

/-- Python `d[k]` or `d.get(k)` as an option: the value at the first
occurrence of the key. -/
def dGet {α : Type} (d : Dict α) (k : String) : Option α :=
  match d with
  | [] => Option.none
  | (k0, v) :: rest => if k0 = k then some v else dGet rest k

/-- Python `k in d`. -/
def dContains {α : Type} (d : Dict α) (k : String) : Bool :=
  (dGet d k).isSome

/-- Python `d[k] = v`: replace in place when the key is present, append at
the end when it is fresh. -/
def dSet {α : Type} (d : Dict α) (k : String) (v : α) : Dict α :=
  match d with
  | [] => [(k, v)]
  | (k0, v0) :: rest => if k0 = k then (k, v) :: rest else (k0, v0) :: dSet rest k v

/-- Python `del d[k]`: drop the entry for the key. -/
def dRemove {α : Type} (d : Dict α) (k : String) : Dict α :=
  match d with
  | [] => []
  | (k0, v0) :: rest => if k0 = k then rest else (k0, v0) :: dRemove rest k

/-- Python `d.update(other)`: assign every entry of `other` in order. -/
def dUpdate {α : Type} (d other : Dict α) : Dict α :=
  other.foldl (fun acc kv => dSet acc kv.1 kv.2) d

/-- The well-known default user constant `DEFAULT_USER_ID` of
`task_storage/base.py`. -/
def DEFAULT_USER_ID : String := "default"

/-- Python `self._tasks[user_id]`, with the empty dict standing for an
absent namespace (callers below only use it under a presence check, as the
source does). -/
def userTasksOf (s : Store) (user_id : String) : UserTasks :=
  (dGet s user_id).getD []

/-- Python `self._tasks[user_id][task_id]` under the existence check. -/
def recordOf (s : Store) (user_id task_id : String) : TaskRecord :=
  (dGet (userTasksOf s user_id) task_id).getD []

/-- In-place assignment `self._tasks[user_id][task_id] = r` (the user's
inner dict is mutated, so the user entry keeps its position). -/
def setRecord (s : Store) (user_id task_id : String) (r : TaskRecord) : Store :=
  dSet s user_id (dSet (userTasksOf s user_id) task_id r)

/-- Message of the `KeyError` every mutator raises on a missing
(user_id, task_id) pair. -/
def NotFoundMsg (task_id user_id : String) : String :=
  "Task " ++ task_id ++ " not found for user " ++ user_id

/-- Method `create_task`: ensure the user namespace exists, then assign
`self._tasks[user_id][task_id] = task_data`.  Never fails. -/
def create_task (task_id : String) (task_data : TaskRecord) (user_id : String)
    (s : Store) : Unit × Store :=
  let s1 := if dContains s user_id then s else dSet s user_id []
  ((), dSet s1 user_id (dSet (userTasksOf s1 user_id) task_id task_data))

/-- Method `task_exists`: membership test on both levels. -/
def task_exists (task_id user_id : String) (s : Store) : Bool × Store :=
  (dContains s user_id && dContains (userTasksOf s user_id) task_id, s)

/-- Method `get_task`: absent pair gives `None`; otherwise a copy of the
record filtered to drop the `agent` key. -/
def get_task (task_id user_id : String) (s : Store) : Option TaskRecord × Store :=
  if !(dContains s user_id && dContains (userTasksOf s user_id) task_id) then
    (Option.none, s)
  else
    let task_data := recordOf s user_id task_id
    (some (task_data.filter (fun kv => kv.1 ≠ "agent")), s)

/-- Method `update_task`: on a missing pair raise `KeyError`; otherwise
`self._tasks[user_id][task_id].update(update_data)`. -/
def update_task (task_id : String) (update_data : TaskRecord) (user_id : String)
    (s : Store) : Except String Unit × Store :=
  if !(task_exists task_id user_id s).1 then
    (Except.error (NotFoundMsg task_id user_id), s)
  else
    (Except.ok (), setRecord s user_id task_id
      (dUpdate (recordOf s user_id task_id) update_data))

/-- Method `delete_task`: `False` when absent, otherwise delete and `True`. -/
def delete_task (task_id user_id : String) (s : Store) : Bool × Store :=
  if !(task_exists task_id user_id s).1 then
    (false, s)
  else
    (true, dSet s user_id (dRemove (userTasksOf s user_id) task_id))

/-- Method `update_task_status`: raise on a missing pair, otherwise assign
the status string to the record field named status. -/
def update_task_status (task_id status user_id : String) (s : Store) :
    Except String Unit × Store :=
  if !(task_exists task_id user_id s).1 then
    (Except.error (NotFoundMsg task_id user_id), s)
  else
    (Except.ok (), setRecord s user_id task_id
      (dSet (recordOf s user_id task_id) "status" (Val.str status)))

/-- Method `add_task_step`: raise on a missing pair; lazily initialize the
steps field to the empty list when absent; append the step payload.  A
pre-existing non-list steps value would make the source raise
`AttributeError` on `.append`, before any mutation. -/
def add_task_step (task_id : String) (step_data : Val) (user_id : String)
    (s : Store) : Except String Unit × Store :=
  if !(task_exists task_id user_id s).1 then
    (Except.error (NotFoundMsg task_id user_id), s)
  else
    let t := recordOf s user_id task_id
    let t1 := if dContains t "steps" then t else dSet t "steps" (Val.vlist [])
    match dGet t1 "steps" with
    | some (Val.vlist l) =>
        (Except.ok (), setRecord s user_id task_id
          (dSet t1 "steps" (Val.vlist (l ++ [step_data]))))
    | _ => (Except.error "AttributeError", s)

/-- Method `add_task_media`: same shape as `add_task_step` on the media
field. -/
def add_task_media (task_id : String) (media_data : Val) (user_id : String)
    (s : Store) : Except String Unit × Store :=
  if !(task_exists task_id user_id s).1 then
    (Except.error (NotFoundMsg task_id user_id), s)
  else
    let t := recordOf s user_id task_id
    let t1 := if dContains t "media" then t else dSet t "media" (Val.vlist [])
    match dGet t1 "media" with
    | some (Val.vlist l) =>
        (Except.ok (), setRecord s user_id task_id
          (dSet t1 "media" (Val.vlist (l ++ [media_data]))))
    | _ => (Except.error "AttributeError", s)

/-- Method `get_task_agent`: `None` when the pair is absent, otherwise
`record.get("agent")` (which is also `None` when the field is absent). -/
def get_task_agent (task_id user_id : String) (s : Store) : Option Val × Store :=
  if !(task_exists task_id user_id s).1 then
    (Option.none, s)
  else
    (dGet (recordOf s user_id task_id) "agent", s)

/-- Method `set_task_agent`: raise on a missing pair, otherwise assign the
agent handle to the record field named agent. -/
def set_task_agent (task_id : String) (agent : Val) (user_id : String)
    (s : Store) : Except String Unit × Store :=
  if !(task_exists task_id user_id s).1 then
    (Except.error (NotFoundMsg task_id user_id), s)
  else
    (Except.ok (), setRecord s user_id task_id
      (dSet (recordOf s user_id task_id) "agent" agent))

/-- Method `set_task_output`: raise on a missing pair, otherwise assign the
output string. -/
def set_task_output (task_id output user_id : String) (s : Store) :
    Except String Unit × Store :=
  if !(task_exists task_id user_id s).1 then
    (Except.error (NotFoundMsg task_id user_id), s)
  else
    (Except.ok (), setRecord s user_id task_id
      (dSet (recordOf s user_id task_id) "output" (Val.str output)))

/-- Method `set_task_error`: raise on a missing pair, otherwise assign the
error string. -/
def set_task_error (task_id error user_id : String) (s : Store) :
    Except String Unit × Store :=
  if !(task_exists task_id user_id s).1 then
    (Except.error (NotFoundMsg task_id user_id), s)
  else
    (Except.ok (), setRecord s user_id task_id
      (dSet (recordOf s user_id task_id) "error" (Val.str error)))

/-- Method `mark_task_finished`: raise on a missing pair, otherwise set the
status field and stamp finished_at with `datetime.now(UTC).isoformat()`
followed by a literal Z.  The wall-clock reading `now` is a parameter of
the model (the only non-determinism in the source). -/
def mark_task_finished (task_id user_id status now : String) (s : Store) :
    Except String Unit × Store :=
  if !(task_exists task_id user_id s).1 then
    (Except.error (NotFoundMsg task_id user_id), s)
  else
    let t := recordOf s user_id task_id
    let t1 := dSet t "status" (Val.str status)
    let t2 := dSet t1 "finished_at" (Val.str (now ++ "Z"))
    (Except.ok (), setRecord s user_id task_id t2)

/-- Sort key of `list_tasks`: `x[1].get("created_at", "")`.  The source
compares the raw values (string comparison on ISO timestamps); a record
whose created_at held a non-string value would make the Python comparison
raise, so the model reads the string and treats any other value like the
empty-string default. -/
def created_key (x : String × TaskRecord) : String :=
  match (dGet x.2 "created_at").getD (Val.str "") with
  | Val.str c => c
  | _ => ""

/-- Lexicographic less-or-equal on code-point sequences: exactly how
Python compares two strings. -/
def charsLe : List Char → List Char → Bool
  | [], _ => true
  | _ :: _, [] => false
  | a :: as, b :: bs =>
      if a < b then true else if b < a then false else charsLe as bs

/-- Python string less-or-equal (lexicographic on code points). -/
def strLe (a b : String) : Bool := charsLe a.data b.data

/-- Stable descending insertion by `created_key`: the element being
inserted precedes the first strictly-smaller key and follows equal keys
(it came earlier in the original order, see `sortByCreatedDesc`). -/
def insertDesc (x : String × TaskRecord) :
    List (String × TaskRecord) → List (String × TaskRecord)
  | [] => [x]
  | y :: ys =>
      if strLe (created_key y) (created_key x) then x :: y :: ys
      else y :: insertDesc x ys

/-- Python `sorted(user_tasks.items(), key=..., reverse=True)`: the stable
sort by `created_key` descending (ties keep dict insertion order).  A
stable sort by a fixed order is unique, so insertion sort computes the
same list as the source's Timsort. -/
def sortByCreatedDesc (l : List (String × TaskRecord)) :
    List (String × TaskRecord) :=
  l.foldr insertDesc []

/-- Adjust one Python slice bound for a list of length `n`: a negative
bound counts from the end, then both are clamped to the range 0..n. -/
def pyBound (n : Nat) (i : Int) : Nat :=
  if i < 0 then (max (i + n) 0).toNat else min i.toNat n

/-- Python `l[i:j]` with unit step. -/
def pySlice {α : Type} (l : List α) (i j : Int) : List α :=
  (l.drop (pyBound l.length i)).take (pyBound l.length j - pyBound l.length i)

/-- The summary dict `list_tasks` builds per task, as a structure (its six
keys are fixed in the source). -/
structure TaskSummary where
  id : String
  status : Val
  task : Val
  created_at : Val
  finished_at : Val
  live_url : Val

/-- Build the summary of one `(task_id, task_data)` item, with the
source's defaults per field. -/
def mkSummary (task_id : String) (task_data : TaskRecord) : TaskSummary :=
  ⟨task_id,
   (dGet task_data "status").getD (Val.str "unknown"),
   (dGet task_data "task").getD (Val.str ""),
   (dGet task_data "created_at").getD (Val.str ""),
   (dGet task_data "finished_at").getD Val.null,
   (dGet task_data "live_url").getD (Val.str ("/live/" ++ task_id))⟩

/-- The dict `list_tasks` returns, as a structure (its four keys are fixed
in the source). -/
structure ListResult where
  tasks : List TaskSummary
  total : Nat
  page : Int
  per_page : Int

/-- Method `list_tasks`: early empty result when the user namespace is
absent; otherwise sort the user's items by created_at descending, slice
with start = (page-1)*per_page and end = start+per_page, and summarize.
Total is the unpaginated per-user count. -/
def list_tasks (user_id : String) (page per_page : Int) (s : Store) :
    ListResult × Store :=
  if !(dContains s user_id) then
    (⟨[], 0, page, per_page⟩, s)
  else
    let user_tasks := userTasksOf s user_id
    let sorted_tasks := sortByCreatedDesc user_tasks
    let start_idx := (page - 1) * per_page
    let end_idx := start_idx + per_page
    let paginated_tasks := pySlice sorted_tasks start_idx end_idx
    let task_list := paginated_tasks.map (fun x => mkSummary x.1 x.2)
    (⟨task_list, user_tasks.length, page, per_page⟩, s)

/-- Default value of the `storage_type` argument of `get_task_storage`. -/
def default_storage_type : String := "memory"

/-- Factory `get_task_storage` of the package init module: the memory kind
gives a fresh `InMemoryTaskStorage` whose constructor makes the store the
empty dict; any other kind raises `ValueError` naming the kind. -/
def get_task_storage (storage_type : String) : Except String Store :=
  if storage_type = "memory" then Except.ok ([] : Store)
  else Except.error ("Unknown storage type: " ++ storage_type)

/-! Lemmas about the dictionary primitives. -/

theorem dGet_dSet_self {α : Type} (d : Dict α) (k : String) (v : α) :
    dGet (dSet d k v) k = some v := by
  induction d with
  | nil => simp [dGet, dSet]
  | cons kv rest ih =>
      obtain ⟨k0, v0⟩ := kv
      by_cases h : k0 = k <;> simp [dGet, dSet, h, ih]

theorem dGet_dSet_ne {α : Type} (d : Dict α) (k k1 : String) (v : α)
    (h : k1 ≠ k) : dGet (dSet d k v) k1 = dGet d k1 := by
  induction d with
  | nil => simp [dGet, dSet, Ne.symm h]
  | cons kv rest ih =>
      obtain ⟨k0, v0⟩ := kv
      by_cases h0 : k0 = k
      · subst h0
        simp [dGet, dSet, Ne.symm h]
      · by_cases h1 : k0 = k1 <;> simp [dGet, dSet, h0, h1, h, ih]

theorem dContains_dSet_self {α : Type} (d : Dict α) (k : String) (v : α) :
    dContains (dSet d k v) k = true := by
  simp [dContains, dGet_dSet_self]

theorem dContains_dSet_ne {α : Type} (d : Dict α) (k k1 : String) (v : α)
    (h : k1 ≠ k) : dContains (dSet d k v) k1 = dContains d k1 := by
  simp [dContains, dGet_dSet_ne d k k1 v h]

theorem dGet_eq_none_of_not_contains {α : Type} (d : Dict α) (k : String)
    (h : dContains d k = false) : dGet d k = Option.none := by
  cases hg : dGet d k with
  | none => rfl
  | some v => simp [dContains, hg] at h

theorem dGet_filter_self (l : TaskRecord) (k : String) :
    dGet (l.filter (fun kv => kv.1 ≠ k)) k = Option.none := by
  induction l with
  | nil => simp [dGet]
  | cons kv rest ih =>
      obtain ⟨k0, v0⟩ := kv
      by_cases h : k0 = k
      · simpa [h] using ih
      · simpa [dGet, h] using ih

theorem dGet_filter_ne (l : TaskRecord) (k k0 : String) (h : k ≠ k0) :
    dGet (l.filter (fun kv => kv.1 ≠ k0)) k = dGet l k := by
  induction l with
  | nil => simp
  | cons kv rest ih =>
      obtain ⟨k1, v1⟩ := kv
      by_cases h1 : k1 = k0
      · subst h1
        simpa [dGet, Ne.symm h] using ih
      · by_cases h2 : k1 = k
        · subst h2
          simp [dGet, h1]
        · simpa [dGet, h1, h2] using ih

/-! Lemmas about the two-level store helpers. -/

theorem userTasksOf_dSet_self (s : Store) (u : String) (x : UserTasks) :
    userTasksOf (dSet s u x) u = x := by
  simp [userTasksOf, dGet_dSet_self]

theorem userTasksOf_dSet_ne (s : Store) (u b : String) (x : UserTasks)
    (h : b ≠ u) : userTasksOf (dSet s u x) b = userTasksOf s b := by
  simp [userTasksOf, dGet_dSet_ne s u b x h]

theorem recordOf_setRecord_self (s : Store) (u t : String) (r : TaskRecord) :
    recordOf (setRecord s u t r) u t = r := by
  simp [recordOf, setRecord, userTasksOf_dSet_self, dGet_dSet_self]

theorem task_exists_setRecord_self (s : Store) (u t : String) (r : TaskRecord) :
    (task_exists t u (setRecord s u t r)).1 = true := by
  simp [task_exists, setRecord, dContains_dSet_self, userTasksOf_dSet_self]

theorem dGet_setRecord_ne (s : Store) (u b t : String) (r : TaskRecord)
    (h : b ≠ u) : dGet (setRecord s u t r) b = dGet s b := by
  simp [setRecord, dGet_dSet_ne s u b _ h]

/-! Behaviour of every mutator on a missing (user_id, task_id) pair: the
source checks existence first, so the raise returns the untouched store. -/

theorem update_task_notFound (t : String) (upd : TaskRecord) (u : String)
    (s : Store) (h : (task_exists t u s).1 = false) :
    update_task t upd u s = (Except.error (NotFoundMsg t u), s) := by
  simp [update_task, h]

theorem update_task_status_notFound (t st u : String) (s : Store)
    (h : (task_exists t u s).1 = false) :
    update_task_status t st u s = (Except.error (NotFoundMsg t u), s) := by
  simp [update_task_status, h]

theorem add_task_step_notFound (t : String) (p : Val) (u : String) (s : Store)
    (h : (task_exists t u s).1 = false) :
    add_task_step t p u s = (Except.error (NotFoundMsg t u), s) := by
  simp [add_task_step, h]

theorem add_task_media_notFound (t : String) (p : Val) (u : String) (s : Store)
    (h : (task_exists t u s).1 = false) :
    add_task_media t p u s = (Except.error (NotFoundMsg t u), s) := by
  simp [add_task_media, h]

theorem set_task_agent_notFound (t : String) (a : Val) (u : String) (s : Store)
    (h : (task_exists t u s).1 = false) :
    set_task_agent t a u s = (Except.error (NotFoundMsg t u), s) := by
  simp [set_task_agent, h]

theorem set_task_output_notFound (t o u : String) (s : Store)
    (h : (task_exists t u s).1 = false) :
    set_task_output t o u s = (Except.error (NotFoundMsg t u), s) := by
  simp [set_task_output, h]

theorem set_task_error_notFound (t e u : String) (s : Store)
    (h : (task_exists t u s).1 = false) :
    set_task_error t e u s = (Except.error (NotFoundMsg t u), s) := by
  simp [set_task_error, h]

theorem mark_task_finished_notFound (t u st now : String) (s : Store)
    (h : (task_exists t u s).1 = false) :
    mark_task_finished t u st now s = (Except.error (NotFoundMsg t u), s) := by
  simp [mark_task_finished, h]

/-- A successful `get_task` is the record filtered to drop the agent key. -/
theorem get_task_of_exists (t u : String) (s : Store)
    (h : (task_exists t u s).1 = true) :
    (get_task t u s).1
      = some ((recordOf s u t).filter (fun kv => kv.1 ≠ "agent")) := by
  have hb : (dContains s u && dContains (userTasksOf s u) t) = true := h
  simp [get_task, hb]

/-- Reads of the (b, t) slot only depend on the store through the entry at
key b. -/
theorem get_task_congr (t b : String) (s2 s : Store)
    (h : dGet s2 b = dGet s b) :
    (get_task t b s2).1 = (get_task t b s).1 := by
  simp only [get_task, dContains, userTasksOf, recordOf]
  rw [h]
  split <;> rfl

theorem recordOf_congr (t b : String) (s2 s : Store)
    (h : dGet s2 b = dGet s b) : recordOf s2 b t = recordOf s b t := by
  simp [recordOf, userTasksOf, h]

/-- The store produced by `create_task` holds the record under both keys. -/
theorem get_task_dSet_dSet (s1 : Store) (t u : String) (y : UserTasks)
    (td : TaskRecord) :
    (get_task t u (dSet s1 u (dSet y t td))).1
      = some (td.filter (fun kv => kv.1 ≠ "agent")) := by
  have hc1 := dContains_dSet_self s1 u (dSet y t td)
  have hu := userTasksOf_dSet_self s1 u (dSet y t td)
  have hc2 := dContains_dSet_self y t td
  have hr : recordOf (dSet s1 u (dSet y t td)) u t = td := by
    simp [recordOf, hu, dGet_dSet_self]
  simp [get_task, hc1, hu, hc2, hr]

/-- C1: after `create_task(task_id, record, user_id)`, `get_task(task_id,
user_id)` returns the input record with the agent key removed (for records
with or without an agent field), and no successful `get_task` result ever
contains an agent field. -/
theorem create_then_get_drops_agent :
    (∀ (s : Store) (task_id user_id : String) (td : TaskRecord),
      (get_task task_id user_id ((create_task task_id td user_id s).2)).1
        = some (td.filter (fun kv => kv.1 ≠ "agent")))
    ∧ (∀ (s : Store) (task_id user_id : String) (r : TaskRecord),
        (get_task task_id user_id s).1 = some r →
        dGet r "agent" = Option.none) := by
  constructor
  · intro s t u td
    exact get_task_dSet_dSet _ t u _ td
  · intro s t u r h
    unfold get_task at h
    split at h
    · simp at h
    · have hr : r = (recordOf s u t).filter (fun kv => kv.1 ≠ "agent") := by
        simpa using h.symm
      rw [hr]
      exact dGet_filter_self _ _

/-- C1 witness at a concrete record carrying an agent field. -/
theorem create_then_get_drops_agent_witness :
    dGet [("status", Val.str "ok")] "agent" = Option.none :=
  create_then_get_drops_agent.2
    ((create_task "t" [("status", Val.str "ok"), ("agent", Val.agentHandle 3)] "u" []).2)
    "t" "u" [("status", Val.str "ok")] (by rfl)

/-- C2: on a missing (user_id, task_id) pair every mutator raises the
KeyError whose message carries both the task id and the user id, and the
task still does not exist afterwards (it is never silently created). -/
theorem mutators_notFound_error (s : Store) (t u : String) (upd : TaskRecord)
    (st o e now : String) (p m a : Val)
    (h : (task_exists t u s).1 = false) :
    ((update_task t upd u s).1 = Except.error (NotFoundMsg t u)
      ∧ (task_exists t u (update_task t upd u s).2).1 = false)
    ∧ ((update_task_status t st u s).1 = Except.error (NotFoundMsg t u)
      ∧ (task_exists t u (update_task_status t st u s).2).1 = false)
    ∧ ((add_task_step t p u s).1 = Except.error (NotFoundMsg t u)
      ∧ (task_exists t u (add_task_step t p u s).2).1 = false)
    ∧ ((add_task_media t m u s).1 = Except.error (NotFoundMsg t u)
      ∧ (task_exists t u (add_task_media t m u s).2).1 = false)
    ∧ ((set_task_agent t a u s).1 = Except.error (NotFoundMsg t u)
      ∧ (task_exists t u (set_task_agent t a u s).2).1 = false)
    ∧ ((set_task_output t o u s).1 = Except.error (NotFoundMsg t u)
      ∧ (task_exists t u (set_task_output t o u s).2).1 = false)
    ∧ ((set_task_error t e u s).1 = Except.error (NotFoundMsg t u)
      ∧ (task_exists t u (set_task_error t e u s).2).1 = false)
    ∧ ((mark_task_finished t u st now s).1 = Except.error (NotFoundMsg t u)
      ∧ (task_exists t u (mark_task_finished t u st now s).2).1 = false)
    ∧ (∃ pre mid : String, NotFoundMsg t u = pre ++ t ++ mid ++ u) := by
  have h1 := update_task_notFound t upd u s h
  have h2 := update_task_status_notFound t st u s h
  have h3 := add_task_step_notFound t p u s h
  have h4 := add_task_media_notFound t m u s h
  have h5 := set_task_agent_notFound t a u s h
  have h6 := set_task_output_notFound t o u s h
  have h7 := set_task_error_notFound t e u s h
  have h8 := mark_task_finished_notFound t u st now s h
  refine ⟨⟨by rw [h1], by rw [h1]; exact h⟩, ⟨by rw [h2], by rw [h2]; exact h⟩,
    ⟨by rw [h3], by rw [h3]; exact h⟩, ⟨by rw [h4], by rw [h4]; exact h⟩,
    ⟨by rw [h5], by rw [h5]; exact h⟩, ⟨by rw [h6], by rw [h6]; exact h⟩,
    ⟨by rw [h7], by rw [h7]; exact h⟩, ⟨by rw [h8], by rw [h8]; exact h⟩,
    "Task ", " not found for user ", ?_⟩
  rfl

/-- C2 witness: the mutators fail on the empty store with the message
naming the task and the user. -/
theorem mutators_notFound_error_witness :
    (update_task "t9" [] "u9" []).1 = Except.error (NotFoundMsg "t9" "u9") :=
  (mutators_notFound_error [] "t9" "u9" [] "s" "o" "e" "n" Val.null Val.null
    Val.null (by rfl)).1.1

/-- C9: each mutator called on a missing (user_id, task_id) pair raises and
returns the two-level store exactly as it was: no user namespace is created
and no field is written. -/
theorem mutators_atomic_on_failure (s : Store) (t u : String)
    (upd : TaskRecord) (st o e now : String) (p m a : Val)
    (h : (task_exists t u s).1 = false) :
    (update_task t upd u s).2 = s
    ∧ (update_task_status t st u s).2 = s
    ∧ (add_task_step t p u s).2 = s
    ∧ (add_task_media t m u s).2 = s
    ∧ (set_task_agent t a u s).2 = s
    ∧ (set_task_output t o u s).2 = s
    ∧ (set_task_error t e u s).2 = s
    ∧ (mark_task_finished t u st now s).2 = s := by
  refine ⟨by rw [update_task_notFound t upd u s h],
    by rw [update_task_status_notFound t st u s h],
    by rw [add_task_step_notFound t p u s h],
    by rw [add_task_media_notFound t m u s h],
    by rw [set_task_agent_notFound t a u s h],
    by rw [set_task_output_notFound t o u s h],
    by rw [set_task_error_notFound t e u s h],
    by rw [mark_task_finished_notFound t u st now s h]⟩

/-- C9 witness: failing mutators leave a concrete one-task store intact. -/
theorem mutators_atomic_on_failure_witness :
    (update_task "missing" [] "other" ((create_task "t" [] "u" []).2)).2
      = (create_task "t" [] "u" []).2 :=
  (mutators_atomic_on_failure ((create_task "t" [] "u" []).2) "missing" "other"
    [] "s" "o" "e" "n" Val.null Val.null Val.null (by rfl)).1

theorem get_task_snd (s : Store) (t u : String) : (get_task t u s).2 = s := by
  unfold get_task
  split <;> rfl

theorem task_exists_snd (s : Store) (t u : String) :
    (task_exists t u s).2 = s := rfl

theorem get_task_agent_snd (s : Store) (t u : String) :
    (get_task_agent t u s).2 = s := by
  unfold get_task_agent
  split <;> rfl

theorem list_tasks_snd (s : Store) (u : String) (page per_page : Int) :
    (list_tasks u page per_page s).2 = s := by
  unfold list_tasks
  split <;> rfl

/-- C10: the four read operations return the two-level store unchanged for
every input; in particular reading under a never-seen user id does not
create that user's namespace. -/
theorem reads_leave_store_unchanged :
    (∀ (s : Store) (t u : String), (get_task t u s).2 = s)
    ∧ (∀ (s : Store) (t u : String), (task_exists t u s).2 = s)
    ∧ (∀ (s : Store) (t u : String), (get_task_agent t u s).2 = s)
    ∧ (∀ (s : Store) (u : String) (page per_page : Int),
        (list_tasks u page per_page s).2 = s)
    ∧ (∀ (s : Store) (t u : String) (page per_page : Int),
        dContains s u = false →
        dContains (get_task t u s).2 u = false
        ∧ dContains (task_exists t u s).2 u = false
        ∧ dContains (get_task_agent t u s).2 u = false
        ∧ dContains (list_tasks u page per_page s).2 u = false) := by
  refine ⟨get_task_snd, task_exists_snd, get_task_agent_snd, list_tasks_snd, ?_⟩
  intro s t u page per_page h
  rw [get_task_snd, task_exists_snd, get_task_agent_snd, list_tasks_snd]
  exact ⟨h, h, h, h⟩

/-- C10 witness: reading a never-seen user id on the empty store leaves it
without that namespace. -/
theorem reads_leave_store_unchanged_witness :
    dContains (get_task "t" "ghost" ([] : Store)).2 "ghost" = false :=
  (reads_leave_store_unchanged.2.2.2.2 [] "t" "ghost" 1 100 (by rfl)).1

/-! Frame lemmas: an operation addressed to user u only touches the store
entry at key u. -/

theorem dGet_create_task_ne (s : Store) (t u b : String) (td : TaskRecord)
    (h : b ≠ u) : dGet ((create_task t td u s).2) b = dGet s b := by
  have e1 : ∀ (s0 : Store) (x : UserTasks), dGet (dSet s0 u x) b = dGet s0 b :=
    fun s0 x => dGet_dSet_ne s0 u b x h
  unfold create_task
  by_cases hc : dContains s u <;> simp [hc, e1]

theorem dGet_update_task_ne (s : Store) (t u b : String) (upd : TaskRecord)
    (h : b ≠ u) : dGet ((update_task t upd u s).2) b = dGet s b := by
  unfold update_task
  split
  · rfl
  · exact dGet_setRecord_ne s u b t _ h

theorem dGet_delete_task_ne (s : Store) (t u b : String)
    (h : b ≠ u) : dGet ((delete_task t u s).2) b = dGet s b := by
  unfold delete_task
  split
  · rfl
  · exact dGet_dSet_ne s u b _ h

theorem dGet_update_task_status_ne (s : Store) (t st u b : String)
    (h : b ≠ u) : dGet ((update_task_status t st u s).2) b = dGet s b := by
  unfold update_task_status
  split
  · rfl
  · exact dGet_setRecord_ne s u b t _ h

theorem dGet_add_task_step_ne (s : Store) (t u b : String) (p : Val)
    (h : b ≠ u) : dGet ((add_task_step t p u s).2) b = dGet s b := by
  unfold add_task_step
  split
  · rfl
  · dsimp only
    split
    · exact dGet_setRecord_ne s u b t _ h
    · rfl

theorem dGet_add_task_media_ne (s : Store) (t u b : String) (p : Val)
    (h : b ≠ u) : dGet ((add_task_media t p u s).2) b = dGet s b := by
  unfold add_task_media
  split
  · rfl
  · dsimp only
    split
    · exact dGet_setRecord_ne s u b t _ h
    · rfl

theorem dGet_set_task_agent_ne (s : Store) (t u b : String) (a : Val)
    (h : b ≠ u) : dGet ((set_task_agent t a u s).2) b = dGet s b := by
  unfold set_task_agent
  split
  · rfl
  · exact dGet_setRecord_ne s u b t _ h

theorem dGet_set_task_output_ne (s : Store) (t o u b : String)
    (h : b ≠ u) : dGet ((set_task_output t o u s).2) b = dGet s b := by
  unfold set_task_output
  split
  · rfl
  · exact dGet_setRecord_ne s u b t _ h

theorem dGet_set_task_error_ne (s : Store) (t e u b : String)
    (h : b ≠ u) : dGet ((set_task_error t e u s).2) b = dGet s b := by
  unfold set_task_error
  split
  · rfl
  · exact dGet_setRecord_ne s u b t _ h

theorem dGet_mark_task_finished_ne (s : Store) (t u st now b : String)
    (h : b ≠ u) : dGet ((mark_task_finished t u st now s).2) b = dGet s b := by
  unfold mark_task_finished
  split
  · rfl
  · exact dGet_setRecord_ne s u b t _ h

/-- Both views of the frame: the stored record of (b, t) and the get result
only depend on the entry at key b. -/
theorem frame_of_dGet (t b : String) (s2 s : Store)
    (h : dGet s2 b = dGet s b) :
    recordOf s2 b t = recordOf s b t
      ∧ (get_task t b s2).1 = (get_task t b s).1 :=
  ⟨recordOf_congr t b s2 s h, get_task_congr t b s2 s h⟩

/-- C5: for two distinct users a and b sharing a task id, every operation
invoked with user id a leaves the record addressed by (b, t2) and the
result of `get_task(t2, b)` unchanged — user namespaces are fully
isolated. -/
theorem user_namespaces_isolated (s : Store) (a b t t2 : String)
    (upd : TaskRecord) (st o e now : String) (p m ag : Val)
    (page per_page : Int) (h : a ≠ b) :
    (recordOf ((create_task t upd a s).2) b t2 = recordOf s b t2
      ∧ (get_task t2 b ((create_task t upd a s).2)).1 = (get_task t2 b s).1)
    ∧ (recordOf ((update_task t upd a s).2) b t2 = recordOf s b t2
      ∧ (get_task t2 b ((update_task t upd a s).2)).1 = (get_task t2 b s).1)
    ∧ (recordOf ((delete_task t a s).2) b t2 = recordOf s b t2
      ∧ (get_task t2 b ((delete_task t a s).2)).1 = (get_task t2 b s).1)
    ∧ (recordOf ((update_task_status t st a s).2) b t2 = recordOf s b t2
      ∧ (get_task t2 b ((update_task_status t st a s).2)).1
          = (get_task t2 b s).1)
    ∧ (recordOf ((add_task_step t p a s).2) b t2 = recordOf s b t2
      ∧ (get_task t2 b ((add_task_step t p a s).2)).1 = (get_task t2 b s).1)
    ∧ (recordOf ((add_task_media t m a s).2) b t2 = recordOf s b t2
      ∧ (get_task t2 b ((add_task_media t m a s).2)).1 = (get_task t2 b s).1)
    ∧ (recordOf ((set_task_agent t ag a s).2) b t2 = recordOf s b t2
      ∧ (get_task t2 b ((set_task_agent t ag a s).2)).1 = (get_task t2 b s).1)
    ∧ (recordOf ((set_task_output t o a s).2) b t2 = recordOf s b t2
      ∧ (get_task t2 b ((set_task_output t o a s).2)).1 = (get_task t2 b s).1)
    ∧ (recordOf ((set_task_error t e a s).2) b t2 = recordOf s b t2
      ∧ (get_task t2 b ((set_task_error t e a s).2)).1 = (get_task t2 b s).1)
    ∧ (recordOf ((mark_task_finished t a st now s).2) b t2 = recordOf s b t2
      ∧ (get_task t2 b ((mark_task_finished t a st now s).2)).1
          = (get_task t2 b s).1)
    ∧ (recordOf ((get_task t a s).2) b t2 = recordOf s b t2
      ∧ (get_task t2 b ((get_task t a s).2)).1 = (get_task t2 b s).1)
    ∧ (recordOf ((task_exists t a s).2) b t2 = recordOf s b t2
      ∧ (get_task t2 b ((task_exists t a s).2)).1 = (get_task t2 b s).1)
    ∧ (recordOf ((get_task_agent t a s).2) b t2 = recordOf s b t2
      ∧ (get_task t2 b ((get_task_agent t a s).2)).1 = (get_task t2 b s).1)
    ∧ (recordOf ((list_tasks a page per_page s).2) b t2 = recordOf s b t2
      ∧ (get_task t2 b ((list_tasks a page per_page s).2)).1
          = (get_task t2 b s).1) := by
  have hb : b ≠ a := Ne.symm h
  refine ⟨frame_of_dGet t2 b _ s (dGet_create_task_ne s t a b upd hb),
    frame_of_dGet t2 b _ s (dGet_update_task_ne s t a b upd hb),
    frame_of_dGet t2 b _ s (dGet_delete_task_ne s t a b hb),
    frame_of_dGet t2 b _ s (dGet_update_task_status_ne s t st a b hb),
    frame_of_dGet t2 b _ s (dGet_add_task_step_ne s t a b p hb),
    frame_of_dGet t2 b _ s (dGet_add_task_media_ne s t a b m hb),
    frame_of_dGet t2 b _ s (dGet_set_task_agent_ne s t a b ag hb),
    frame_of_dGet t2 b _ s (dGet_set_task_output_ne s t o a b hb),
    frame_of_dGet t2 b _ s (dGet_set_task_error_ne s t e a b hb),
    frame_of_dGet t2 b _ s (dGet_mark_task_finished_ne s t a st now b hb),
    frame_of_dGet t2 b _ s (by rw [get_task_snd]),
    frame_of_dGet t2 b _ s (by rw [task_exists_snd]),
    frame_of_dGet t2 b _ s (by rw [get_task_agent_snd]),
    frame_of_dGet t2 b _ s (by rw [list_tasks_snd])⟩

/-- C5 witness: creating task t for user a does not disturb the record
user b stored under the same task id. -/
theorem user_namespaces_isolated_witness :
    (get_task "t" "b"
      ((create_task "t" [("task", Val.str "mine")] "a"
        ((create_task "t" [("task", Val.str "theirs")] "b" []).2)).2)).1
      = (get_task "t" "b" ((create_task "t" [("task", Val.str "theirs")] "b" []).2)).1 :=
  (user_namespaces_isolated ((create_task "t" [("task", Val.str "theirs")] "b" []).2)
    "a" "b" "t" "t" [("task", Val.str "mine")] "s" "o" "e" "n"
    Val.null Val.null Val.null 1 100 (by decide)).1.2

/-- C7: `list_tasks` never fails; a user namespace with zero tasks (never
touched, or present and empty) yields the empty task list, total 0, and
echoes the requested page and per_page, for any page and per_page. -/
theorem list_tasks_empty_namespace (s : Store) (u : String)
    (page per_page : Int) (h : userTasksOf s u = []) :
    (list_tasks u page per_page s).1 = ⟨[], 0, page, per_page⟩ := by
  unfold list_tasks
  by_cases hc : dContains s u
  · simp [hc, h, sortByCreatedDesc, pySlice]
  · simp [hc]

/-- C7 witness: a never-seen user id on the empty store, with an arbitrary
page and per_page. -/
theorem list_tasks_empty_namespace_witness :
    (list_tasks "ghost" 7 9 ([] : Store)).1 = ⟨[], 0, 7, 9⟩ :=
  list_tasks_empty_namespace [] "ghost" 7 9 (by rfl)

/-- C8: the selector returns a fresh in-memory store (empty at
construction) for the memory kind — which is also the declared default —
and raises ValueError for any other kind, with the unrecognized kind in
the message. -/
theorem get_task_storage_selects (k : String) (h : k ≠ "memory") :
    get_task_storage "memory" = Except.ok ([] : Store)
    ∧ default_storage_type = "memory"
    ∧ get_task_storage default_storage_type = Except.ok ([] : Store)
    ∧ ∃ pre : String, get_task_storage k = Except.error (pre ++ k) := by
  refine ⟨rfl, rfl, rfl, "Unknown storage type: ", ?_⟩
  simp [get_task_storage, h]

/-- C8 witness at the unrecognized kind bogus. -/
theorem get_task_storage_selects_witness :
    get_task_storage "memory" = Except.ok ([] : Store) :=
  (get_task_storage_selects "bogus" (by decide)).1

/-- C6: on an existing task, `mark_task_finished` sets the status field to
the supplied status string (the source default is "finished"; e.g.
"failed") and sets finished_at to the wall-clock ISO-8601 string with a
literal Z appended — a non-empty string ending in Z. -/
theorem mark_task_finished_sets (s : Store) (t u st now : String)
    (h : (task_exists t u s).1 = true) :
    ∃ r, (get_task t u ((mark_task_finished t u st now s).2)).1 = some r
      ∧ dGet r "status" = some (Val.str st)
      ∧ dGet r "finished_at" = some (Val.str (now ++ "Z"))
      ∧ (now ++ "Z") ≠ ""
      ∧ ∃ pre, now ++ "Z" = pre ++ "Z" := by
  have hsnd : (mark_task_finished t u st now s).2
      = setRecord s u t (dSet (dSet (recordOf s u t) "status" (Val.str st))
          "finished_at" (Val.str (now ++ "Z"))) := by
    unfold mark_task_finished
    simp [h]
  rw [hsnd, get_task_of_exists t u _ (task_exists_setRecord_self s u t _)]
  refine ⟨_, rfl, ?_, ?_, ?_, now, rfl⟩
  · rw [dGet_filter_ne _ _ _ (by decide), recordOf_setRecord_self,
      dGet_dSet_ne _ _ _ _ (by decide)]
    exact dGet_dSet_self _ _ _
  · rw [dGet_filter_ne _ _ _ (by decide), recordOf_setRecord_self]
    exact dGet_dSet_self _ _ _
  · intro hempty
    have hlen := congrArg String.length hempty
    simp [String.length_append] at hlen
    exact absurd hlen.2 (by decide)

/-- C6 witness on a concrete one-task store, with the caller-supplied
status failed. -/
theorem mark_task_finished_sets_witness :
    ∃ r, (get_task "t" "u"
        ((mark_task_finished "t" "u" "failed" "2024-01-01T00:00:00+00:00"
          ((create_task "t" [("status", Val.str "running")] "u" []).2)).2)).1
        = some r
      ∧ dGet r "status" = some (Val.str "failed")
      ∧ dGet r "finished_at"
          = some (Val.str ("2024-01-01T00:00:00+00:00" ++ "Z"))
      ∧ ("2024-01-01T00:00:00+00:00" ++ "Z") ≠ ""
      ∧ ∃ pre, "2024-01-01T00:00:00+00:00" ++ "Z" = pre ++ "Z" :=
  mark_task_finished_sets ((create_task "t" [("status", Val.str "running")] "u" []).2)
    "t" "u" "failed" "2024-01-01T00:00:00+00:00" (by rfl)

/-- A task created with a pre-existing steps entry, refuting the claim
that N appends always give exactly the appended payloads. -/
def preStepsStore : Store :=
  (create_task "tx" [("steps", Val.vlist [Val.str "x"])] "u" []).2

/-- C4 counterexample: on the existing task tx whose record already holds
steps = [x], one `add_task_step` with payload s1 gives steps [x, s1], not
[s1]; moreover `update_task` can replace the steps entries wholesale, so
it is not true that no store operation removes existing entries. -/
theorem add_task_step_claim_counterexample :
    ((task_exists "tx" "u" preStepsStore).1 = true
      ∧ (get_task "tx" "u"
          ((add_task_step "tx" (Val.str "s1") "u" preStepsStore).2)).1
          = some [("steps", Val.vlist [Val.str "x", Val.str "s1"])]
      ∧ Val.vlist [Val.str "x", Val.str "s1"] ≠ Val.vlist [Val.str "s1"])
    ∧ (get_task "tx" "u"
        ((update_task "tx" [("steps", Val.vlist [])] "u" preStepsStore).2)).1
        = some [("steps", Val.vlist [])] := by
  refine ⟨⟨rfl, rfl, ?_⟩, rfl⟩
  simp

theorem add_step_existing (s : Store) (t u : String) (p : Val) (l : List Val)
    (hx : (task_exists t u s).1 = true)
    (hl : dGet (recordOf s u t) "steps" = some (Val.vlist l)) :
    (add_task_step t p u s).2
      = setRecord s u t (dSet (recordOf s u t) "steps" (Val.vlist (l ++ [p]))) := by
  simp [add_task_step, hx, dContains, hl]

theorem add_step_absent (s : Store) (t u : String) (p : Val)
    (hx : (task_exists t u s).1 = true)
    (hn : dGet (recordOf s u t) "steps" = Option.none) :
    (add_task_step t p u s).2
      = setRecord s u t
          (dSet (dSet (recordOf s u t) "steps" (Val.vlist []))
            "steps" (Val.vlist [p])) := by
  simp [add_task_step, hx, dContains, hn, dGet_dSet_self]

/-- Iterating `add_task_step` over payloads appends them in order to the
existing steps list. -/
theorem steps_fold (ps : List Val) : ∀ (s : Store) (t u : String) (l : List Val),
    (task_exists t u s).1 = true →
    dGet (recordOf s u t) "steps" = some (Val.vlist l) →
    (task_exists t u (ps.foldl (fun st q => (add_task_step t q u st).2) s)).1 = true
    ∧ dGet (recordOf (ps.foldl (fun st q => (add_task_step t q u st).2) s) u t)
        "steps" = some (Val.vlist (l ++ ps)) := by
  induction ps with
  | nil =>
      intro s t u l hx hl
      simpa using ⟨hx, hl⟩
  | cons q qs ih =>
      intro s t u l hx hl
      have h2 := add_step_existing s t u q l hx hl
      have hx2 : (task_exists t u (add_task_step t q u s).2).1 = true := by
        rw [h2]
        exact task_exists_setRecord_self s u t _
      have hl2 : dGet (recordOf (add_task_step t q u s).2 u t) "steps"
          = some (Val.vlist (l ++ [q])) := by
        rw [h2, recordOf_setRecord_self]
        exact dGet_dSet_self _ _ _
      have h3 := ih ((add_task_step t q u s).2) t u (l ++ [q]) hx2 hl2
      simpa [List.append_assoc] using h3

/-- C4 amended: `add_task_step` appends its payload at the end of the
steps list, preserving the existing entries and their order; and from an
existing task whose record has no steps field, N calls with payloads
s1..sN make the steps field seen through `get_task` exactly [s1, ..., sN]. -/
theorem add_task_step_appends (s : Store) (t u : String) (p : Val)
    (l ps : List Val) (hx : (task_exists t u s).1 = true) :
    (dGet (recordOf s u t) "steps" = some (Val.vlist l) →
      ∃ r, (get_task t u ((add_task_step t p u s).2)).1 = some r
        ∧ dGet r "steps" = some (Val.vlist (l ++ [p])))
    ∧ (dGet (recordOf s u t) "steps" = Option.none → ps ≠ [] →
      ∃ r, (get_task t u
          (ps.foldl (fun st q => (add_task_step t q u st).2) s)).1 = some r
        ∧ dGet r "steps" = some (Val.vlist ps)) := by
  constructor
  · intro hl
    have h2 := add_step_existing s t u p l hx hl
    have hx2 : (task_exists t u (add_task_step t p u s).2).1 = true := by
      rw [h2]
      exact task_exists_setRecord_self s u t _
    refine ⟨_, get_task_of_exists t u _ hx2, ?_⟩
    rw [dGet_filter_ne _ _ _ (by decide), h2, recordOf_setRecord_self]
    exact dGet_dSet_self _ _ _
  · intro hn hne
    match ps with
    | [] => exact absurd rfl hne
    | q :: qs =>
        have h1 := add_step_absent s t u q hx hn
        have hx1 : (task_exists t u (add_task_step t q u s).2).1 = true := by
          rw [h1]
          exact task_exists_setRecord_self s u t _
        have hl1 : dGet (recordOf (add_task_step t q u s).2 u t) "steps"
            = some (Val.vlist [q]) := by
          rw [h1, recordOf_setRecord_self]
          exact dGet_dSet_self _ _ _
        have h3 := steps_fold qs ((add_task_step t q u s).2) t u [q] hx1 hl1
        have hfold : (q :: qs).foldl (fun st q0 => (add_task_step t q0 u st).2) s
            = qs.foldl (fun st q0 => (add_task_step t q0 u st).2)
                ((add_task_step t q u s).2) := rfl
        rw [hfold]
        refine ⟨_, get_task_of_exists t u _ h3.1, ?_⟩
        rw [dGet_filter_ne _ _ _ (by decide)]
        simpa using h3.2

/-- C4 amended witness: two appends on a freshly created task. -/
theorem add_task_step_appends_witness :
    ∃ r, (get_task "ty" "u"
        ([Val.payload 1, Val.payload 2].foldl
          (fun st q => (add_task_step "ty" q "u" st).2)
          ((create_task "ty" [] "u" []).2))).1 = some r
      ∧ dGet r "steps" = some (Val.vlist [Val.payload 1, Val.payload 2]) :=
  (add_task_step_appends ((create_task "ty" [] "u" []).2) "ty" "u" Val.null
    [] [Val.payload 1, Val.payload 2] (by rfl)).2 (by rfl) (by simp)

/-! The sort used by `list_tasks`: permutation and descending order. -/

theorem charsLe_total (as bs : List Char) :
    charsLe as bs = true ∨ charsLe bs as = true := by
  induction as generalizing bs with
  | nil => exact Or.inl rfl
  | cons a as ih =>
      cases bs with
      | nil => exact Or.inr rfl
      | cons b bs =>
          by_cases hab : a < b
          · exact Or.inl (by simp [charsLe, hab])
          · by_cases hba : b < a
            · exact Or.inr (by simp [charsLe, hba])
            · have heq : a = b := le_antisymm (not_lt.mp hba) (not_lt.mp hab)
              subst heq
              rcases ih bs with h | h
              · exact Or.inl (by simp [charsLe, lt_irrefl, h])
              · exact Or.inr (by simp [charsLe, lt_irrefl, h])

theorem charsLe_trans (as bs cs : List Char) (h1 : charsLe as bs = true)
    (h2 : charsLe bs cs = true) : charsLe as cs = true := by
  induction as generalizing bs cs with
  | nil => rfl
  | cons a as ih =>
      cases bs with
      | nil => simp [charsLe] at h1
      | cons b bs =>
          cases cs with
          | nil => simp [charsLe] at h2
          | cons c cs =>
              by_cases hab : a < b
              · by_cases hbc : b < c
                · simp [charsLe, lt_trans hab hbc]
                · by_cases hcb : c < b
                  · simp [charsLe, hbc, hcb] at h2
                  · have hbceq : b = c := le_antisymm (not_lt.mp hcb) (not_lt.mp hbc)
                    subst hbceq
                    simp [charsLe, hab]
              · by_cases hba : b < a
                · simp [charsLe, hab, hba] at h1
                · have habeq : a = b := le_antisymm (not_lt.mp hba) (not_lt.mp hab)
                  subst habeq
                  simp [charsLe, lt_irrefl] at h1
                  by_cases hac : a < c
                  · simp [charsLe, hac]
                  · by_cases hca : c < a
                    · simp [charsLe, hac, hca] at h2
                    · have haceq : a = c := le_antisymm (not_lt.mp hca) (not_lt.mp hac)
                      subst haceq
                      simp [charsLe, lt_irrefl] at h2 ⊢
                      exact ih bs cs h1 h2

theorem strLe_total (a b : String) : strLe a b = true ∨ strLe b a = true :=
  charsLe_total a.data b.data

theorem strLe_trans (a b c : String) (h1 : strLe a b = true)
    (h2 : strLe b c = true) : strLe a c = true :=
  charsLe_trans a.data b.data c.data h1 h2

theorem insertDesc_perm (x : String × TaskRecord)
    (l : List (String × TaskRecord)) :
    List.Perm (insertDesc x l) (x :: l) := by
  induction l with
  | nil => exact List.Perm.refl _
  | cons y ys ih =>
      unfold insertDesc
      split
      · exact List.Perm.refl _
      · exact (List.Perm.cons y ih).trans (List.Perm.swap x y ys)

theorem sortByCreatedDesc_perm (l : List (String × TaskRecord)) :
    List.Perm (sortByCreatedDesc l) l := by
  induction l with
  | nil => exact List.Perm.refl _
  | cons x xs ih =>
      exact (insertDesc_perm x (sortByCreatedDesc xs)).trans (List.Perm.cons x ih)

theorem insertDesc_sorted (x : String × TaskRecord)
    (l : List (String × TaskRecord))
    (h : List.Pairwise (fun a b => strLe (created_key b) (created_key a) = true) l) :
    List.Pairwise (fun a b => strLe (created_key b) (created_key a) = true)
      (insertDesc x l) := by
  induction l with
  | nil => simp [insertDesc]
  | cons y ys ih =>
      rcases List.pairwise_cons.mp h with ⟨hy, hys⟩
      unfold insertDesc
      split
      · rename_i hle
        refine List.pairwise_cons.mpr ⟨?_, h⟩
        intro z hz
        rcases List.mem_cons.mp hz with rfl | hz2
        · exact hle
        · exact strLe_trans _ _ _ (hy z hz2) hle
      · rename_i hgt
        have hxy : strLe (created_key x) (created_key y) = true := by
          rcases strLe_total (created_key y) (created_key x) with h0 | h0
          · exact absurd h0 hgt
          · exact h0
        refine List.pairwise_cons.mpr ⟨?_, ih hys⟩
        intro z hz
        have hz2 := (insertDesc_perm x ys).mem_iff.mp hz
        rcases List.mem_cons.mp hz2 with rfl | hz3
        · exact hxy
        · exact hy z hz3

theorem sortByCreatedDesc_sorted (l : List (String × TaskRecord)) :
    List.Pairwise (fun a b => strLe (created_key b) (created_key a) = true)
      (sortByCreatedDesc l) := by
  induction l with
  | nil => simp [sortByCreatedDesc]
  | cons x xs ih => exact insertDesc_sorted x (sortByCreatedDesc xs) ih

/-! The Python slice, on non-negative bounds. -/

theorem pyBound_nonneg (n : Nat) (i : Int) (h : 0 ≤ i) :
    pyBound n i = min i.toNat n := by
  simp [pyBound, not_lt.mpr h]

theorem pySlice_nonneg {α : Type} (l : List α) (i j : Int)
    (hi : 0 ≤ i) (hj : 0 ≤ j) :
    pySlice l i j = (l.drop i.toNat).take (j.toNat - i.toNat) := by
  unfold pySlice
  rw [pyBound_nonneg _ _ hi, pyBound_nonneg _ _ hj]
  by_cases hcase : i.toNat ≤ l.length
  · rw [min_eq_left hcase]
    apply List.take_eq_take.mpr
    rw [List.length_drop]
    omega
  · have h1 : l.length ≤ i.toNat := le_of_not_le hcase
    rw [min_eq_right h1, List.drop_length, List.drop_eq_nil_of_le h1]
    simp

/-- Demo record n of the C3 concrete scenario (strictly increasing
created_at across n = 1, 2, 3). -/
def demoRecord (n : String) : TaskRecord :=
  [("status", Val.str "created"), ("task", Val.str ("job " ++ n)),
   ("created_at", Val.str ("2024-01-01T00:00:0" ++ n ++ "Z"))]

/-- Three tasks created in order t1, t2, t3 for user u. -/
def demoStore : Store :=
  (create_task "t3" (demoRecord "3") "u"
    ((create_task "t2" (demoRecord "2") "u"
      ((create_task "t1" (demoRecord "1") "u" []).2)).2)).2

/-- The summary `list_tasks` is expected to build for demo task n. -/
def demoSummary (n : String) : TaskSummary :=
  ⟨"t" ++ n, Val.str "created", Val.str ("job " ++ n),
   Val.str ("2024-01-01T00:00:0" ++ n ++ "Z"), Val.null,
   Val.str ("/live/t" ++ n)⟩

/-- C3: `list_tasks` reports total as the full unpaginated per-user count
and echoes page and per_page; its task list is the slice from
(page-1)*per_page of length per_page of the user's tasks sorted by their
created_at string in descending lexicographic order (the sorted sequence
is a permutation of the user's tasks, pairwise descending); an
out-of-range page yields an empty list, not an error; and over three tasks
with strictly increasing timestamps, page 1 with per_page 2 returns the
two most recent newest first with total 3, while page 2 returns exactly
the remaining one. -/
theorem list_tasks_sorts_and_paginates (s : Store) (u : String)
    (page per_page : Int) :
    (list_tasks u page per_page s).1.total = (userTasksOf s u).length
    ∧ (list_tasks u page per_page s).1.page = page
    ∧ (list_tasks u page per_page s).1.per_page = per_page
    ∧ List.Perm (sortByCreatedDesc (userTasksOf s u)) (userTasksOf s u)
    ∧ List.Pairwise (fun a b => strLe (created_key b) (created_key a) = true)
        (sortByCreatedDesc (userTasksOf s u))
    ∧ (1 ≤ page → 0 ≤ per_page →
        (list_tasks u page per_page s).1.tasks
          = (((sortByCreatedDesc (userTasksOf s u)).drop
                (((page - 1) * per_page).toNat)).take per_page.toNat).map
              (fun x => mkSummary x.1 x.2))
    ∧ (1 ≤ page → 0 ≤ per_page →
        (userTasksOf s u).length ≤ ((page - 1) * per_page).toNat →
        (list_tasks u page per_page s).1.tasks = [])
    ∧ (list_tasks "u" 1 2 demoStore).1
        = ⟨[demoSummary "3", demoSummary "2"], 3, 1, 2⟩
    ∧ (list_tasks "u" 2 2 demoStore).1 = ⟨[demoSummary "1"], 3, 2, 2⟩ := by
  have htotal : (list_tasks u page per_page s).1.total
      = (userTasksOf s u).length := by
    cases hc : dContains s u with
    | false =>
        have hu : userTasksOf s u = [] := by
          simp [userTasksOf, dGet_eq_none_of_not_contains s u hc]
        simp [list_tasks, hc, hu]
    | true => simp [list_tasks, hc]
  have hpage : (list_tasks u page per_page s).1.page = page := by
    unfold list_tasks
    split <;> rfl
  have hpp0 : (list_tasks u page per_page s).1.per_page = per_page := by
    unfold list_tasks
    split <;> rfl
  have hslice : 1 ≤ page → 0 ≤ per_page →
      (list_tasks u page per_page s).1.tasks
        = (((sortByCreatedDesc (userTasksOf s u)).drop
              (((page - 1) * per_page).toNat)).take per_page.toNat).map
            (fun x => mkSummary x.1 x.2) := by
    intro hp hpp
    have hstart : 0 ≤ (page - 1) * per_page := mul_nonneg (by omega) hpp
    have hend : 0 ≤ (page - 1) * per_page + per_page := add_nonneg hstart hpp
    have harith : ((page - 1) * per_page + per_page).toNat
        - ((page - 1) * per_page).toNat = per_page.toNat := by omega
    cases hc : dContains s u with
    | false =>
        have hu : userTasksOf s u = [] := by
          simp [userTasksOf, dGet_eq_none_of_not_contains s u hc]
        simp [list_tasks, hc, hu, sortByCreatedDesc]
    | true =>
        simp only [list_tasks, hc, Bool.not_true, Bool.false_eq_true,
          if_false, ite_false]
        rw [pySlice_nonneg _ _ _ hstart hend, harith]
  have hout : 1 ≤ page → 0 ≤ per_page →
      (userTasksOf s u).length ≤ ((page - 1) * per_page).toNat →
      (list_tasks u page per_page s).1.tasks = [] := by
    intro hp hpp hlen
    rw [hslice hp hpp]
    have hsl : (sortByCreatedDesc (userTasksOf s u)).length
        ≤ ((page - 1) * per_page).toNat := by
      rw [(sortByCreatedDesc_perm (userTasksOf s u)).length_eq]
      exact hlen
    rw [List.drop_eq_nil_of_le hsl]
    simp
  exact ⟨htotal, hpage, hpp0, sortByCreatedDesc_perm _,
    sortByCreatedDesc_sorted _, hslice, hout, rfl, rfl⟩

/-- C3 witness: the slice form of the task list, instantiated on the demo
store at page 1, per_page 2. -/
theorem list_tasks_sorts_and_paginates_witness :
    (list_tasks "u" 1 2 demoStore).1.tasks
      = (((sortByCreatedDesc (userTasksOf demoStore "u")).drop
            (((1 - 1) * 2 : Int).toNat)).take (2 : Int).toNat).map
          (fun x => mkSummary x.1 x.2) :=
  (list_tasks_sorts_and_paginates demoStore "u" 1 2).2.2.2.2.2.1
    (by decide) (by decide)

end TaskStore
